import Mathlib

/-!
Shallow embedding of the Caravana vehicle-telemetry scripts
(`index.py`, `obd_simulator.py`, `obd_collector.py`).

Floats are embedded as rationals.  Every call to `random.*` in the source
becomes an explicit draw passed in as an argument; the theorems constrain
each draw to the range the source requests.  `None` values become
`Option`.
-/

namespace Caravana

/-- Round half to even: the rounding mode of Python's builtin `round`
and of `format` strings. -/
def rintEven (q : ℚ) : ℤ :=
  let f := ⌊q⌋
  if q - f < 1/2 then f
  else if 1/2 < q - f then f + 1
  else if f % 2 = 0 then f else f + 1

/-- Python's `round(q, n)` on rationals. -/
def pyRound (n : ℕ) (q : ℚ) : ℚ := (rintEven (q * 10 ^ n) : ℚ) / 10 ^ n

/-- Serialization step `round(v, n) if v else None`: Python truthiness maps
both a missing value and the number 0 to `None`. -/
def truthyRound (n : ℕ) : Option ℚ → Option ℚ
  | some v => if v = 0 then none else some (pyRound n v)
  | none => none

namespace OBDSimulator

/-- Driving modes accepted by `OBDSimulator.gerar_dados` (`index.py`). -/
inductive Modo
  | parado
  | acelerando
  | rodando
  | freando
deriving DecidableEq

/-- Mutable state of `OBDSimulator` (`index.py`): current speed (km/h),
rpm and coolant temperature. -/
structure SimState where
  velocidade : ℚ
  rpm : ℤ
  temperatura : ℚ
deriving DecidableEq

/-- Initial vehicle state set in `OBDSimulator.__init__` (`index.py`):
speed 0, rpm 800, temperature 60. -/
def initState : SimState := ⟨0, 800, 60⟩

/-- The random draws consumed by one call to `gerar_dados`:
`rSpeed` for the `randint` used by the speed update of the active mode,
`rRpm` for the rpm `randint`, `rConsumo` for the `uniform` consumption
draw, `rTemp` for `uniform(88, 95)`, `rFuel` for `randint(40, 90)`. -/
structure Draws where
  rSpeed : ℤ
  rRpm : ℤ
  rConsumo : ℚ
  rTemp : ℚ
  rFuel : ℤ
deriving DecidableEq

/-- The payload dictionary built by `OBDSimulator.gerar_dados`
(`index.py`, lines 60-75). -/
structure DadosOBD where
  velocidade : ℚ
  rpm : ℤ
  temperatura : ℚ
  nivelCombustivel : ℤ
  consumoInstantaneo : ℚ
  distanciaPercorrida : ℚ
  milStatus : Bool
  dtcCount : ℕ
  fonte : String
deriving DecidableEq

/-- `OBDSimulator.gerar_dados` (`index.py`, lines 26-77): advances the
vehicle state for the given mode and builds the payload.  The f-string
`f"{d:.6f}"` rounds the interval distance to 6 decimal places. -/
def gerar_dados (s : SimState) (modo : Modo) (intervalo : ℚ) (d : Draws) :
    SimState × DadosOBD :=
  let vrc : ℚ × ℤ × ℚ :=
    match modo with
    | .parado => (0, d.rRpm, 0)
    | .acelerando => (min (s.velocidade + (d.rSpeed : ℚ)) 120, d.rRpm, d.rConsumo)
    | .rodando => ((d.rSpeed : ℚ), d.rRpm, d.rConsumo)
    | .freando => (max (s.velocidade - (d.rSpeed : ℚ)) 0, d.rRpm, d.rConsumo)
  let vel := vrc.1
  let rpm := vrc.2.1
  let consumo := vrc.2.2
  let temp : ℚ := if s.temperatura < 90 then s.temperatura + 1/2 else d.rTemp
  let dist : ℚ := (vel / 3600) * intervalo
  (⟨vel, rpm, temp⟩,
   { velocidade := pyRound 1 vel
     rpm := rpm
     temperatura := pyRound 1 temp
     nivelCombustivel := d.rFuel
     consumoInstantaneo := pyRound 2 consumo
     distanciaPercorrida := pyRound 6 dist
     milStatus := false
     dtcCount := 0
     fonte := "simulador_v3_simples" })

end OBDSimulator

/-- State of `CustomOBDSimulator` (`obd_simulator.py`): speed (km/h),
fuel level (%), accumulated distance (km), movement flag, the per-vehicle
base values drawn in `__init__`, the last tick time and trip start time
(seconds), and the generated VIN. -/
structure CState where
  speed : ℚ
  fuel_level : ℚ
  distance : ℚ
  is_moving : Bool
  base_temp : ℚ
  base_rpm_idle : ℚ
  last_time : ℚ
  trip_start_time : ℚ
  vin : String
deriving DecidableEq

/-- The random draws consumed by one call to `CustomOBDSimulator.update`:
`rToggle` for `random.random() < 0.10`, `rStartSpeed` for
`uniform(20, 40)`, `rChange` for `uniform(-3, 5)`, `rDecel` for
`uniform(8, 15)`. -/
structure CDraws where
  rToggle : Bool
  rStartSpeed : ℚ
  rChange : ℚ
  rDecel : ℚ
deriving DecidableEq

/-- `CustomOBDSimulator.update` (`obd_simulator.py`, lines 58-90):
occasionally toggles movement, evolves the speed, integrates distance
over the elapsed time and draws down the fuel level (floored at 5). -/
def CState.update (s : CState) (d : CDraws) (now : ℚ) : CState :=
  let moving := if d.rToggle then !s.is_moving else s.is_moving
  let speed0 := if d.rToggle && moving then d.rStartSpeed else s.speed
  let speed1 :=
    if moving then max 10 (min (speed0 + d.rChange) 85)
    else max 0 (speed0 - d.rDecel)
  let dt := now - s.last_time
  let distance := if 0 < speed1 then s.distance + speed1 * (dt / 3600) else s.distance
  let fuel :=
    if 0 < speed1 then max 5 (s.fuel_level - (1/500 + speed1 / 10000))
    else s.fuel_level
  { s with
    is_moving := moving
    speed := speed1
    distance := distance
    fuel_level := fuel
    last_time := now }

/-- `CustomOBDSimulator.get_coolant_temp` (`obd_simulator.py`,
lines 92-98): base temperature plus a speed-dependent jitter draw
(`uniform(2, 8)` above 40 km/h, `uniform(-3, 3)` otherwise), clamped to
[75, 105]. -/
def CState.get_coolant_temp (s : CState) (jHigh jLow : ℚ) : ℚ :=
  let temp := if 40 < s.speed then s.base_temp + jHigh else s.base_temp + jLow
  max 75 (min temp 105)

/-- `CustomOBDSimulator.get_rpm` (`obd_simulator.py`, lines 100-109):
idle rpm plus jitter when nearly stopped, otherwise 40 rpm per km/h plus
jitter. -/
def CState.get_rpm (s : CState) (j : ℚ) : ℚ :=
  if s.speed < 1 then s.base_rpm_idle + j
  else s.base_rpm_idle + s.speed * 40 + j

/-- `CustomOBDSimulator.get_maf` (`obd_simulator.py`, lines 119-123):
a fresh rpm draw scaled to g/s plus a jitter draw (`uniform(-0.5, 0.5)`). -/
def CState.get_maf (s : CState) (jRpm jMaf : ℚ) : ℚ :=
  (s.get_rpm jRpm / 1000) * (5/2) + jMaf

/-- `CustomOBDSimulator.get_dtc_codes` (`obd_simulator.py`,
lines 125-129): a fixed trouble code with 2% probability (`hit`). -/
def get_dtc_codes (hit : Bool) : List (String × String) :=
  if hit then [("P0128", "Coolant Thermostat Temperature")] else []

namespace VehicleDataCollector

/-- `VehicleDataCollector._calculate_fuel_consumption`
(`obd_simulator.py`, lines 241-255): `None` when either input is missing
or the speed is 0 (the MAF is not checked against 0). -/
def calculate_fuel_consumption (speed maf : Option ℚ) : Option ℚ × Option ℚ :=
  match speed, maf with
  | some s, some m =>
    if s = 0 then (none, none)
    else
      let fuel_flow := (m * 3600) / ((147/10) * 720)
      let km_per_liter := if 0 < fuel_flow then s / fuel_flow else 0
      (some km_per_liter, some fuel_flow)
  | _, _ => (none, none)

/-- The snapshot dictionary built by
`VehicleDataCollector.get_current_snapshot` (`obd_simulator.py`,
lines 221-237).  Numeric fields are guarded by Python truthiness
(`round(v, n) if v else None`), hence `Option`. -/
structure VReading where
  vehicle_id : String
  vin : String
  coolant_temp_celsius : Option ℚ
  rpm : Option ℚ
  speed_kmh : Option ℚ
  fuel_level_percent : Option ℚ
  maf_g_s : Option ℚ
  fuel_consumption_kml : Option ℚ
  fuel_flow_lh : Option ℚ
  distance_traveled_km : Option ℚ
  dtc_codes : List (String × String)
  has_errors : Bool
  trip_start : Option ℚ
deriving DecidableEq

/-- The random draws consumed by one call to
`VehicleDataCollector.get_current_snapshot` in the simulator path:
the `update` draws plus one jitter draw per getter and the DTC draw. -/
structure VDraws where
  upd : CDraws
  jTempHigh : ℚ
  jTempLow : ℚ
  jRpm : ℚ
  jMafRpm : ℚ
  jMaf : ℚ
  dtcHit : Bool
deriving DecidableEq

/-- `VehicleDataCollector.get_current_snapshot` (`obd_simulator.py`,
lines 181-239), simulator path: updates the simulator state, samples each
getter, derives the fuel consumption and assembles the snapshot. -/
def get_current_snapshot (vid : String) (s : CState) (d : VDraws) (now : ℚ) :
    CState × VReading :=
  let s1 := s.update d.upd now
  let temp := s1.get_coolant_temp d.jTempHigh d.jTempLow
  let rpm := s1.get_rpm d.jRpm
  let speed := s1.speed
  let fuel := s1.fuel_level
  let maf := s1.get_maf d.jMafRpm d.jMaf
  let dtc := get_dtc_codes d.dtcHit
  let distance := s1.distance
  let p := calculate_fuel_consumption (some speed) (some maf)
  (s1,
   { vehicle_id := vid
     vin := s1.vin
     coolant_temp_celsius := truthyRound 1 (some temp)
     rpm := truthyRound 0 (some rpm)
     speed_kmh := truthyRound 1 (some speed)
     fuel_level_percent := truthyRound 1 (some fuel)
     maf_g_s := truthyRound 2 (some maf)
     fuel_consumption_kml := truthyRound 2 p.1
     fuel_flow_lh := truthyRound 2 p.2
     distance_traveled_km := truthyRound 3 (some distance)
     dtc_codes := dtc
     has_errors := !dtc.isEmpty
     trip_start := some s1.trip_start_time })

end VehicleDataCollector

namespace RealOBDCollector

/-- Distance-tracking state of `RealOBDCollector` (`obd_collector.py`):
last observed speed, last tick time (seconds) and the accumulated fuel
consumed (litres). -/
structure RState where
  last_speed : ℚ
  last_time : ℚ
  total_fuel_consumed : ℚ
deriving DecidableEq

/-- One round of OBD query responses (`obd_collector.py`, lines 146-161).
`none` models a null response (`is_null()`), per queried quantity. -/
structure Responses where
  temp : Option ℚ
  rpm : Option ℚ
  speed : Option ℚ
  fuel : Option ℚ
  maf : Option ℚ
  voltage : Option ℚ
  dtc : List (String × String)
deriving DecidableEq

/-- `RealOBDCollector._extract_value` (`obd_collector.py`,
lines 214-233): a null response yields `None`, otherwise the numeric
magnitude. -/
def extract_value (response : Option ℚ) : Option ℚ := response

/-- `RealOBDCollector._calculate_fuel_consumption` (`obd_collector.py`,
lines 261-278): `None` when either input is missing or zero; otherwise
the fuel flow in L/h and the fuel consumed over the interval. -/
def calculate_fuel_consumption (speed maf : Option ℚ) (dt : ℚ) :
    Option ℚ × Option ℚ :=
  match speed, maf with
  | some s, some m =>
    if s = 0 ∨ m = 0 then (none, none)
    else
      let fuel_flow := (m * 3600) / ((147/10) * 720)
      let fuel_consumed := fuel_flow * (dt / 3600)
      (some fuel_consumed, some fuel_flow)
  | _, _ => (none, none)

/-- The distance computed by `RealOBDCollector.get_current_snapshot`
(`obd_collector.py`, lines 163-171): the average of the current and the
previous speed times the elapsed time, 0 when the speed is missing or 0. -/
def distance_traveled (speed : Option ℚ) (last_speed dt : ℚ) : ℚ :=
  match speed with
  | some v => if 0 < v then ((v + last_speed) / 2) * (dt / 3600) else 0
  | none => 0

/-- The snapshot dictionary built by
`RealOBDCollector.get_current_snapshot` (`obd_collector.py`,
lines 183-210), numeric and diagnostic fields.  Missing values are
replaced by numeric defaults (0; 12.0 for voltage). -/
structure LeituraOBD where
  velocidade : ℚ
  rpm : ℚ
  temperatura : ℚ
  nivelCombustivel : ℚ
  voltagem : ℚ
  consumoInstantaneo : ℚ
  distanciaPercorrida : ℚ
  milStatus : Bool
  dtcCount : ℕ
deriving DecidableEq

/-- `RealOBDCollector.get_current_snapshot` (`obd_collector.py`,
lines 142-212): extracts each response, integrates the distance since the
last reading, derives the fuel consumption and assembles the snapshot in
the API format. -/
def get_current_snapshot (s : RState) (r : Responses) (now : ℚ) :
    RState × LeituraOBD :=
  let temp := extract_value r.temp
  let rpm := extract_value r.rpm
  let speed := extract_value r.speed
  let fuel := extract_value r.fuel
  let maf := extract_value r.maf
  let voltage := extract_value r.voltage
  let dt := now - s.last_time
  let dist := distance_traveled speed s.last_speed dt
  let last_speed1 := match speed with | some v => v | none => 0
  let p := calculate_fuel_consumption speed maf dt
  let total1 :=
    match p.1 with
    | some f => if f = 0 then s.total_fuel_consumed else s.total_fuel_consumed + f
    | none => s.total_fuel_consumed
  ({ last_speed := last_speed1, last_time := now, total_fuel_consumed := total1 },
   { velocidade := match speed with | some v => pyRound 1 v | none => 0
     rpm := match rpm with | some v => pyRound 0 v | none => 0
     temperatura := match temp with | some v => pyRound 1 v | none => 0
     nivelCombustivel := match fuel with | some v => pyRound 1 v | none => 0
     voltagem := match voltage with | some v => pyRound 2 v | none => 12
     consumoInstantaneo :=
       match p.2 with
       | some f => if f = 0 then 0 else pyRound 2 f
       | none => 0
     distanciaPercorrida := pyRound 3 dist
     milStatus := !r.dtc.isEmpty
     dtcCount := r.dtc.length })

end RealOBDCollector

/-- The document persisted by `save_local` in both collectors
(`obd_simulator.py`, lines 257-278; `obd_collector.py`, lines 280-301). -/
structure LocalDoc (α : Type) where
  vehicle_id : String
  last_update : String
  total_readings : ℕ
  latest : α
  history : List α
deriving DecidableEq

/-- `save_local` (`obd_simulator.py`, lines 257-278; `obd_collector.py`,
lines 280-301): appends the snapshot, keeps only the last 1000 readings
and serializes the document; returns the new readings list and the
document written to disk. -/
def save_local {α : Type} (vid ts : String) (readings : List α) (snapshot : α) :
    List α × LocalDoc α :=
  let r0 := readings ++ [snapshot]
  let r := if 1000 < r0.length then r0.drop (r0.length - 1000) else r0
  (r,
   { vehicle_id := vid
     last_update := ts
     total_readings := r.length
     latest := snapshot
     history := r })

/-- Iterated `save_local` readings state, starting from the empty list. -/
def runSaveLocal {α : Type} (vid ts : String) (snaps : List α) : List α :=
  snaps.foldl (fun acc x => (save_local vid ts acc x).1) []

namespace OBDSimulator

/-- The payload assembly of `gerar_dados` (`index.py`, lines 60-75), as a
function of the values it serializes: it draws no randomness of its own. -/
def montarPayload (vel : ℚ) (rpm : ℤ) (temp : ℚ) (nivel : ℤ) (consumo dist : ℚ) :
    DadosOBD :=
  { velocidade := pyRound 1 vel
    rpm := rpm
    temperatura := pyRound 1 temp
    nivelCombustivel := nivel
    consumoInstantaneo := pyRound 2 consumo
    distanciaPercorrida := pyRound 6 dist
    milStatus := false
    dtcCount := 0
    fonte := "simulador_v3_simples" }

/-- One tick of the `index.py` driving loop: a mode, an interval and the
random draws consumed by `gerar_dados`. -/
structure Tick where
  modo : Modo
  intervalo : ℚ
  draws : Draws

/-- Iterated state evolution of `OBDSimulator` over a list of ticks. -/
def runSim (s : SimState) (ts : List Tick) : SimState :=
  ts.foldl (fun st t => (gerar_dados st t.modo t.intervalo t.draws).1) s

end OBDSimulator

/-- Iterated `CustomOBDSimulator.update` over a list of (draws, time)
ticks. -/
def runCustom (s : CState) (l : List (CDraws × ℚ)) : CState :=
  l.foldl (fun st p => st.update p.1 p.2) s

end Caravana

namespace Caravana

open OBDSimulator

/-- C1: one call to `OBDSimulator.gerar_dados` leaves the resulting speed
within the mode's documented bound, for every starting speed at least 0:
`parado` yields speed 0; `acelerando` adds the `randint(5, 15)` draw capped
at 120; `rodando` resamples the speed in [60, 90]; `freando` subtracts the
`randint(10, 20)` draw floored at 0. -/
theorem C1_speed_bounds (s : SimState) (m : Modo) (i : ℚ) (d : Draws)
    (hv : 0 ≤ s.velocidade)
    (ha : m = Modo.acelerando → 5 ≤ d.rSpeed ∧ d.rSpeed ≤ 15)
    (hr : m = Modo.rodando → 60 ≤ d.rSpeed ∧ d.rSpeed ≤ 90)
    (hf : m = Modo.freando → 10 ≤ d.rSpeed ∧ d.rSpeed ≤ 20) :
    (m = Modo.parado → (gerar_dados s m i d).1.velocidade = 0) ∧
    (m = Modo.acelerando →
      (gerar_dados s m i d).1.velocidade = min (s.velocidade + (d.rSpeed : ℚ)) 120 ∧
      0 ≤ (gerar_dados s m i d).1.velocidade ∧
      (gerar_dados s m i d).1.velocidade ≤ 120) ∧
    (m = Modo.rodando →
      60 ≤ (gerar_dados s m i d).1.velocidade ∧
      (gerar_dados s m i d).1.velocidade ≤ 90) ∧
    (m = Modo.freando →
      (gerar_dados s m i d).1.velocidade = max (s.velocidade - (d.rSpeed : ℚ)) 0 ∧
      0 ≤ (gerar_dados s m i d).1.velocidade ∧
      (gerar_dados s m i d).1.velocidade ≤ s.velocidade) := by
  cases m with
  | parado =>
    refine ⟨fun _ => rfl, ?_, ?_, ?_⟩ <;> (intro h; exact absurd h (by decide))
  | acelerando =>
    obtain ⟨h5, h15⟩ := ha rfl
    have h5q : (5 : ℚ) ≤ (d.rSpeed : ℚ) := by exact_mod_cast h5
    refine ⟨?_, fun _ => ⟨rfl, ?_, ?_⟩, ?_, ?_⟩
    · intro h; exact absurd h (by decide)
    · show (0 : ℚ) ≤ min (s.velocidade + (d.rSpeed : ℚ)) 120
      exact le_min (by linarith) (by norm_num)
    · show min (s.velocidade + (d.rSpeed : ℚ)) 120 ≤ 120
      exact min_le_right _ _
    · intro h; exact absurd h (by decide)
    · intro h; exact absurd h (by decide)
  | rodando =>
    obtain ⟨h60, h90⟩ := hr rfl
    refine ⟨?_, ?_, fun _ => ⟨?_, ?_⟩, ?_⟩
    · intro h; exact absurd h (by decide)
    · intro h; exact absurd h (by decide)
    · show (60 : ℚ) ≤ (d.rSpeed : ℚ)
      exact_mod_cast h60
    · show (d.rSpeed : ℚ) ≤ 90
      exact_mod_cast h90
    · intro h; exact absurd h (by decide)
  | freando =>
    obtain ⟨h10, h20⟩ := hf rfl
    have h10q : (10 : ℚ) ≤ (d.rSpeed : ℚ) := by exact_mod_cast h10
    refine ⟨?_, ?_, ?_, fun _ => ⟨rfl, ?_, ?_⟩⟩
    · intro h; exact absurd h (by decide)
    · intro h; exact absurd h (by decide)
    · intro h; exact absurd h (by decide)
    · show (0 : ℚ) ≤ max (s.velocidade - (d.rSpeed : ℚ)) 0
      exact le_max_right _ _
    · show max (s.velocidade - (d.rSpeed : ℚ)) 0 ≤ s.velocidade
      exact max_le (by linarith) hv

/-- Witness for C1 at mode `rodando` with draw 75. -/
theorem C1_speed_bounds_witness :
    (0 : ℚ) ≤ initState.velocidade ∧
    60 ≤ (gerar_dados initState Modo.rodando 2 ⟨75, 2000, 12, 90, 50⟩).1.velocidade ∧
    (gerar_dados initState Modo.rodando 2 ⟨75, 2000, 12, 90, 50⟩).1.velocidade ≤ 90 := by
  have h := C1_speed_bounds initState Modo.rodando 2 ⟨75, 2000, 12, 90, 50⟩
    (by norm_num [initState]) (by decide) (by decide) (by decide)
  exact ⟨by norm_num [initState], (h.2.2.1 rfl).1, (h.2.2.1 rfl).2⟩

/-- The temperature update of `gerar_dados` is the same in every mode:
increase by 0.5 while below 90, otherwise take the `uniform(88, 95)` draw. -/
theorem gerar_dados_temperatura (s : SimState) (m : Modo) (i : ℚ) (d : Draws) :
    (gerar_dados s m i d).1.temperatura =
      if s.temperatura < 90 then s.temperatura + 1/2 else d.rTemp := by
  cases m <;> rfl

/-- The speed `CustomOBDSimulator.update` produces is never negative. -/
theorem update_speed_nonneg (s : CState) (d : CDraws) (now : ℚ) :
    0 ≤ (s.update d now).speed := by
  simp only [CState.update]
  split_ifs <;> exact le_max_iff.mpr (Or.inl (by norm_num))

/-- C2 counterexample: the real collector's distance integration uses the
average of the current and the previous speed, so at speed 100 km/h with
previous speed 0 and 2 s elapsed it yields 1/36 km, not
(100/3600)*2 = 1/18 km. -/
theorem C2_distance_counterexample :
    RealOBDCollector.distance_traveled (some 100) 0 2 ≠ (100 / 3600) * 2 := by
  norm_num [RealOBDCollector.distance_traveled]

/-- C2 amended: the per-tick distance delta equals (speed/3600)*elapsed
exactly in `OBDSimulator.gerar_dados` (whose payload field then rounds it
to 6 decimal places) and in `CustomOBDSimulator.update`; the real
collector instead uses the average of the current and previous speed:
((speed+last)/2)*(dt/3600) when speed > 0, else 0. -/
theorem C2_distance_amended :
    (∀ (s : SimState) (m : Modo) (i : ℚ) (d : Draws),
      (gerar_dados s m i d).2.distanciaPercorrida =
        pyRound 6 (((gerar_dados s m i d).1.velocidade / 3600) * i)) ∧
    (∀ (s : CState) (d : CDraws) (now : ℚ),
      (s.update d now).distance - s.distance =
        ((s.update d now).speed / 3600) * (now - s.last_time)) ∧
    (∀ (v last dt : ℚ), 0 < v →
      RealOBDCollector.distance_traveled (some v) last dt =
        ((v + last) / 2) * (dt / 3600)) ∧
    (∀ (last dt : ℚ), RealOBDCollector.distance_traveled none last dt = 0 ∧
      RealOBDCollector.distance_traveled (some 0) last dt = 0) := by
  refine ⟨?_, ?_, ?_, ?_⟩
  · intro s m i d
    cases m <;> rfl
  · intro s d now
    have h0 := update_speed_nonneg s d now
    rcases h0.lt_or_eq with hpos | hzero
    · show (if 0 < (s.update d now).speed then
          s.distance + (s.update d now).speed * ((now - s.last_time) / 3600)
          else s.distance) - s.distance =
        ((s.update d now).speed / 3600) * (now - s.last_time)
      rw [if_pos hpos]
      ring
    · show (if 0 < (s.update d now).speed then
          s.distance + (s.update d now).speed * ((now - s.last_time) / 3600)
          else s.distance) - s.distance =
        ((s.update d now).speed / 3600) * (now - s.last_time)
      rw [if_neg (by rw [← hzero]; exact lt_irrefl 0), ← hzero]
      ring
  · intro v last dt hv
    simp [RealOBDCollector.distance_traveled, hv]
  · intro last dt
    constructor
    · rfl
    · simp [RealOBDCollector.distance_traveled]

/-- Witness for C2 amended on the real-collector conjunct at speed 100,
previous speed 50, 2 s elapsed. -/
theorem C2_distance_amended_witness :
    (0 : ℚ) < 100 ∧
    RealOBDCollector.distance_traveled (some 100) 50 2 = ((100 + 50) / 2) * (2 / 3600) := by
  exact ⟨by norm_num, C2_distance_amended.2.2.1 100 50 2 (by norm_num)⟩

/-- Invariant of the `index.py` temperature across tick sequences: from a
start in [60, 95] and `uniform(88, 95)` draws, the temperature stays in
[60, 95]. -/
theorem runSim_temp_invariant (ts : List Tick) :
    ∀ s : SimState, 60 ≤ s.temperatura → s.temperatura ≤ 95 →
    (∀ t ∈ ts, 88 ≤ t.draws.rTemp ∧ t.draws.rTemp ≤ 95) →
    60 ≤ (runSim s ts).temperatura ∧ (runSim s ts).temperatura ≤ 95 := by
  induction ts with
  | nil => exact fun s h1 h2 _ => ⟨h1, h2⟩
  | cons t ts ih =>
    intro s h1 h2 hall
    have ht := hall t (List.mem_cons_self _ _)
    have step1 : 60 ≤ (gerar_dados s t.modo t.intervalo t.draws).1.temperatura := by
      rw [gerar_dados_temperatura]
      split_ifs with h
      · linarith
      · linarith [ht.1]
    have step2 : (gerar_dados s t.modo t.intervalo t.draws).1.temperatura ≤ 95 := by
      rw [gerar_dados_temperatura]
      split_ifs with h
      · linarith
      · exact ht.2
    exact ih _ step1 step2 (fun x hx => hall x (List.mem_cons_of_mem _ hx))

/-- Once the `index.py` temperature is at least 88, every later tick keeps
it at least 88: warm-up adds 0.5 and steady-state draws are at least 88. -/
theorem runSim_warm_floor (ts : List Tick) :
    ∀ s : SimState, 88 ≤ s.temperatura →
    (∀ t ∈ ts, 88 ≤ t.draws.rTemp) →
    88 ≤ (runSim s ts).temperatura := by
  induction ts with
  | nil => exact fun s h _ => h
  | cons t ts ih =>
    intro s h hall
    have step : 88 ≤ (gerar_dados s t.modo t.intervalo t.draws).1.temperatura := by
      rw [gerar_dados_temperatura]
      split_ifs with hlt
      · linarith
      · exact hall t (List.mem_cons_self _ _)
    exact ih _ step (fun x hx => hall x (List.mem_cons_of_mem _ hx))

/-- C3 counterexample: from the initial state (temperature 60), the very
first tick of `OBDSimulator.gerar_dados` reports temperature 60.5, which
is below 75. -/
theorem C3_temperature_counterexample :
    (gerar_dados initState Modo.parado 2 ⟨0, 800, 0, 90, 50⟩).2.temperatura = 121/2 ∧
    (121/2 : ℚ) < 75 := by
  constructor
  · norm_num [gerar_dados, initState, pyRound, rintEven]
  · norm_num

/-- C3 amended: in `OBDSimulator` (`index.py`) the temperature starts at
60 and never exceeds 95 (hence never 105) under `uniform(88, 95)` draws,
and once at least 88 it never falls below 88 again — but it is below 75
throughout the warm-up from 60; in `CustomOBDSimulator`
(`obd_simulator.py`) every reported coolant temperature lies in
[75, 105]. -/
theorem C3_temperature_amended :
    (∀ ts : List Tick, (∀ t ∈ ts, 88 ≤ t.draws.rTemp ∧ t.draws.rTemp ≤ 95) →
      60 ≤ (runSim initState ts).temperatura ∧ (runSim initState ts).temperatura ≤ 95) ∧
    (∀ (s : SimState) (ts : List Tick), 88 ≤ s.temperatura →
      (∀ t ∈ ts, 88 ≤ t.draws.rTemp) → 88 ≤ (runSim s ts).temperatura) ∧
    (∀ (c : CState) (jH jL : ℚ),
      75 ≤ c.get_coolant_temp jH jL ∧ c.get_coolant_temp jH jL ≤ 105) := by
  refine ⟨?_, ?_, ?_⟩
  · intro ts hall
    exact runSim_temp_invariant ts initState (by norm_num [initState])
      (by norm_num [initState]) hall
  · intro s ts h hall
    exact runSim_warm_floor ts s h hall
  · intro c jH jL
    simp only [CState.get_coolant_temp]
    constructor
    · exact le_max_left _ _
    · exact max_le (by norm_num) (min_le_right _ _)

/-- Witness for C3 amended on a one-tick sequence with draw 90. -/
theorem C3_temperature_amended_witness :
    (∀ t ∈ [Tick.mk Modo.parado 2 ⟨0, 800, 0, 90, 50⟩],
      88 ≤ t.draws.rTemp ∧ t.draws.rTemp ≤ 95) ∧
    60 ≤ (runSim initState [Tick.mk Modo.parado 2 ⟨0, 800, 0, 90, 50⟩]).temperatura ∧
    (runSim initState [Tick.mk Modo.parado 2 ⟨0, 800, 0, 90, 50⟩]).temperatura ≤ 95 := by
  have h := C3_temperature_amended.1 [Tick.mk Modo.parado 2 ⟨0, 800, 0, 90, 50⟩]
    (by intro t ht; simp at ht; subst ht; norm_num)
  exact ⟨by intro t ht; simp at ht; subst ht; norm_num, h.1, h.2⟩

/-- C4: for positive speed and MAF, both fuel-consumption computations
return fuel_flow_Lh = (maf*3600)/(14.7*720); the simulator computation
also returns km_per_L = speed / fuel_flow_Lh, and the real collector
additionally integrates fuel over the interval. -/
theorem C4_fuel_flow (s m dt : ℚ) (hs : 0 < s) (hm : 0 < m) :
    VehicleDataCollector.calculate_fuel_consumption (some s) (some m) =
      (some (s / ((m * 3600) / ((147/10) * 720))), some ((m * 3600) / ((147/10) * 720))) ∧
    RealOBDCollector.calculate_fuel_consumption (some s) (some m) dt =
      (some (((m * 3600) / ((147/10) * 720)) * (dt / 3600)),
       some ((m * 3600) / ((147/10) * 720))) := by
  have hs0 : s ≠ 0 := ne_of_gt hs
  have hm0 : m ≠ 0 := ne_of_gt hm
  have hflow : 0 < (m * 3600) / ((147/10 : ℚ) * 720) := by positivity
  constructor
  · simp only [VehicleDataCollector.calculate_fuel_consumption]
    rw [if_neg hs0, if_pos hflow]
  · simp only [RealOBDCollector.calculate_fuel_consumption]
    rw [if_neg (not_or.mpr ⟨hs0, hm0⟩)]

/-- Witness for C4 at the spec scenario: speed 80 km/h and MAF 8 g/s give
fuel flow 400/147 (about 2.72 L/h) and 147/5 = 29.4 km/L. -/
theorem C4_fuel_flow_witness :
    (0:ℚ) < 80 ∧ (0:ℚ) < 8 ∧
    VehicleDataCollector.calculate_fuel_consumption (some 80) (some 8) =
      (some (147/5), some (400/147)) ∧
    (RealOBDCollector.calculate_fuel_consumption (some 80) (some 8) 2).2 =
      some (400/147) := by
  have h := C4_fuel_flow 80 8 2 (by norm_num) (by norm_num)
  refine ⟨by norm_num, by norm_num, ?_, ?_⟩
  · rw [h.1]; norm_num
  · rw [h.2]; norm_num

/-- C5 counterexample: in the simulator path,
`VehicleDataCollector._calculate_fuel_consumption` at speed 50 and MAF 0
returns the pair of zeros (0 km/L, 0 L/h), not the absent pair: the MAF
is never checked against 0 there. -/
theorem C5_zero_maf_counterexample :
    VehicleDataCollector.calculate_fuel_consumption (some 50) (some 0) =
      (some 0, some 0) ∧
    (some (0:ℚ), some (0:ℚ)) ≠ ((none, none) : Option ℚ × Option ℚ) := by
  constructor
  · norm_num [VehicleDataCollector.calculate_fuel_consumption]
  · simp

/-- C5 amended: the real collector returns the absent pair whenever speed
or MAF is missing or zero; the simulator computation returns the absent
pair when the speed is missing or zero or the MAF is missing, but returns
the numeric pair (0, 0) when the MAF is zero and the speed is not — which
the snapshot serialization then maps to absent by truthiness. -/
theorem C5_absent_amended :
    (∀ s m dt : ℚ, s = 0 ∨ m = 0 →
      RealOBDCollector.calculate_fuel_consumption (some s) (some m) dt = (none, none)) ∧
    (∀ (x : Option ℚ) (dt : ℚ),
      RealOBDCollector.calculate_fuel_consumption none x dt = (none, none) ∧
      RealOBDCollector.calculate_fuel_consumption x none dt = (none, none)) ∧
    (∀ m : Option ℚ,
      VehicleDataCollector.calculate_fuel_consumption (some 0) m = (none, none) ∧
      VehicleDataCollector.calculate_fuel_consumption none m = (none, none) ∧
      VehicleDataCollector.calculate_fuel_consumption m none = (none, none)) ∧
    (∀ s : ℚ, s ≠ 0 →
      VehicleDataCollector.calculate_fuel_consumption (some s) (some 0) =
        (some 0, some 0)) ∧
    (∀ n : ℕ, truthyRound n (some 0) = none ∧ truthyRound n none = none) := by
  refine ⟨?_, ?_, ?_, ?_, ?_⟩
  · intro s m dt h
    simp only [RealOBDCollector.calculate_fuel_consumption]
    rw [if_pos h]
  · intro x dt
    exact ⟨rfl, by cases x <;> rfl⟩
  · intro m
    refine ⟨?_, rfl, by cases m <;> rfl⟩
    cases m with
    | none => rfl
    | some q =>
      simp [VehicleDataCollector.calculate_fuel_consumption]
  · intro s hs
    simp only [VehicleDataCollector.calculate_fuel_consumption]
    rw [if_neg hs]
    norm_num
  · intro n
    exact ⟨by simp [truthyRound], rfl⟩

/-- Witness for C5 amended at speed 0, MAF 5 in the real collector. -/
theorem C5_absent_amended_witness :
    ((0:ℚ) = 0 ∨ (5:ℚ) = 0) ∧
    RealOBDCollector.calculate_fuel_consumption (some 0) (some 5) 2 = (none, none) := by
  exact ⟨Or.inl rfl, C5_absent_amended.1 0 5 2 (Or.inl rfl)⟩

/-- One `CustomOBDSimulator.update` never increases the fuel level and
keeps it at least 5. -/
theorem update_fuel_step (s : CState) (d : CDraws) (now : ℚ)
    (h5 : 5 ≤ s.fuel_level) :
    5 ≤ (s.update d now).fuel_level ∧ (s.update d now).fuel_level ≤ s.fuel_level := by
  have hsp := update_speed_nonneg s d now
  have hc : 0 ≤ 1/500 + (s.update d now).speed / 10000 :=
    add_nonneg (by norm_num) (div_nonneg hsp (by norm_num))
  show 5 ≤ (if 0 < (s.update d now).speed then
      max 5 (s.fuel_level - (1/500 + (s.update d now).speed / 10000))
      else s.fuel_level) ∧
    (if 0 < (s.update d now).speed then
      max 5 (s.fuel_level - (1/500 + (s.update d now).speed / 10000))
      else s.fuel_level) ≤ s.fuel_level
  split_ifs with hp
  · exact ⟨le_max_left _ _, max_le h5 (sub_le_self _ hc)⟩
  · exact ⟨h5, le_refl _⟩

/-- Iterated `CustomOBDSimulator.update` never increases the fuel level
and keeps it at least 5. -/
theorem runCustom_fuel (l : List (CDraws × ℚ)) :
    ∀ s : CState, 5 ≤ s.fuel_level →
    5 ≤ (runCustom s l).fuel_level ∧ (runCustom s l).fuel_level ≤ s.fuel_level := by
  induction l with
  | nil => exact fun s h => ⟨h, le_refl _⟩
  | cons p l ih =>
    intro s h
    have hstep := update_fuel_step s p.1 p.2 h
    have hrec := ih (s.update p.1 p.2) hstep.1
    exact ⟨hrec.1, le_trans hrec.2 hstep.2⟩

/-- C6 counterexample: `index.py` draws `nivelCombustivel` fresh with
`randint(40, 90)` each tick, so the reported fuel level can rise between
consecutive ticks (here from 40 to 90), violating monotone
non-increase. -/
theorem C6_fuel_counterexample :
    (gerar_dados initState Modo.parado 2 ⟨0, 800, 0, 90, 40⟩).2.nivelCombustivel <
    (gerar_dados (gerar_dados initState Modo.parado 2 ⟨0, 800, 0, 90, 40⟩).1
      Modo.parado 2 ⟨0, 800, 0, 90, 90⟩).2.nivelCombustivel := by
  decide

/-- C6 amended: `CustomOBDSimulator`'s fuel level is monotonically
non-increasing and stays within [5, 100] across any tick sequence started
within [5, 100]; `OBDSimulator` (`index.py`) reports a fresh
`randint(40, 90)` fuel level each tick, which lies within [5, 100] but is
not monotone. -/
theorem C6_fuel_amended :
    (∀ (s : CState) (d : CDraws) (now : ℚ), 5 ≤ s.fuel_level →
      5 ≤ (s.update d now).fuel_level ∧ (s.update d now).fuel_level ≤ s.fuel_level) ∧
    (∀ (s : CState) (l : List (CDraws × ℚ)), 5 ≤ s.fuel_level → s.fuel_level ≤ 100 →
      5 ≤ (runCustom s l).fuel_level ∧ (runCustom s l).fuel_level ≤ s.fuel_level ∧
      (runCustom s l).fuel_level ≤ 100) ∧
    (∀ (s : SimState) (m : Modo) (i : ℚ) (d : Draws), 40 ≤ d.rFuel → d.rFuel ≤ 90 →
      5 ≤ (gerar_dados s m i d).2.nivelCombustivel ∧
      (gerar_dados s m i d).2.nivelCombustivel ≤ 100) := by
  refine ⟨fun s d now h => update_fuel_step s d now h, ?_, ?_⟩
  · intro s l h5 h100
    have h := runCustom_fuel l s h5
    exact ⟨h.1, h.2, le_trans h.2 h100⟩
  · intro s m i d h1 h2
    have e : (gerar_dados s m i d).2.nivelCombustivel = d.rFuel := by
      cases m <;> rfl
    rw [e]
    omega

/-- Witness for C6 amended on a one-tick sequence from fuel level 50. -/
theorem C6_fuel_amended_witness :
    (5:ℚ) ≤ 50 ∧ (50:ℚ) ≤ 100 ∧
    5 ≤ (runCustom ⟨0, 50, 0, false, 85, 800, 0, 0, "VIN"⟩
      [(⟨false, 30, 1, 10⟩, 2)]).fuel_level ∧
    (runCustom ⟨0, 50, 0, false, 85, 800, 0, 0, "VIN"⟩
      [(⟨false, 30, 1, 10⟩, 2)]).fuel_level ≤ 50 ∧
    (runCustom ⟨0, 50, 0, false, 85, 800, 0, 0, "VIN"⟩
      [(⟨false, 30, 1, 10⟩, 2)]).fuel_level ≤ 100 := by
  have h := C6_fuel_amended.2.1 ⟨0, 50, 0, false, 85, 800, 0, 0, "VIN"⟩
    [(⟨false, 30, 1, 10⟩, 2)] (by norm_num) (by norm_num)
  exact ⟨by norm_num, by norm_num, h.1, h.2.1, h.2.2⟩

set_option maxRecDepth 10000 in
/-- The readings list returned by `save_local`: append, then trim to the
last 1000 when over the cap. -/
theorem save_local_fst {α : Type} (v t : String) (rs : List α) (x : α) :
    (save_local v t rs x).1 =
      if 1000 < (rs ++ [x]).length then
        (rs ++ [x]).drop ((rs ++ [x]).length - 1000)
      else rs ++ [x] := by
  simp only [save_local]

/-- Iterated `save_local` keeps exactly the suffix of the snapshots that
fits the 1000-reading cap. -/
theorem runSaveLocal_eq {α : Type} (v t : String) (xs : List α) :
    runSaveLocal v t xs = xs.drop (xs.length - 1000) := by
  induction xs using List.reverseRecOn with
  | nil => simp [runSaveLocal]
  | append_singleton ys y ih =>
    have hfold : runSaveLocal v t (ys ++ [y]) =
        (save_local v t (runSaveLocal v t ys) y).1 := by
      simp [runSaveLocal, List.foldl_append]
    rw [hfold, ih, save_local_fst]
    by_cases h : 1000 ≤ ys.length
    · have hd : (ys.drop (ys.length - 1000)).length = 1000 := by
        rw [List.length_drop]; omega
      have e1 : (ys.drop (ys.length - 1000) ++ [y]).length = 1001 := by
        simp only [List.length_append, List.length_singleton, hd]
      rw [if_pos (by rw [e1]; norm_num), e1]
      have e2 : (1001 : ℕ) - 1000 = 1 := by norm_num
      rw [e2,
        List.drop_append_of_le_length
          (by rw [hd]; norm_num : 1 ≤ (ys.drop (ys.length - 1000)).length),
        List.drop_drop]
      have e3 : (ys ++ [y]).length - 1000 = ys.length - 999 := by
        simp only [List.length_append, List.length_singleton]; omega
      rw [e3, List.drop_append_of_le_length (by omega : ys.length - 999 ≤ ys.length)]
      have e4 : ys.length - 1000 + 1 = ys.length - 999 := by omega
      rw [e4]
    · have h0 : ys.length - 1000 = 0 := by omega
      rw [h0, List.drop_zero]
      have e1 : (ys ++ [y]).length = ys.length + 1 := by simp
      rw [if_neg (by rw [e1]; omega)]
      have e2 : (ys ++ [y]).length - 1000 = 0 := by rw [e1]; omega
      rw [e2, List.drop_zero]

/-- C7: after any sequence of save_local calls the stored history holds
exactly min(n, 1000) readings — the most recent ones in arrival order,
oldest evicted first — and the persisted document carries vehicle_id,
last_update, total_readings, latest and history. -/
theorem C7_save_local (α : Type) (v t : String) (xs : List α) (x : α) :
    ((save_local v t (runSaveLocal v t xs) x).1).length = min (xs.length + 1) 1000 ∧
    (save_local v t (runSaveLocal v t xs) x).1 =
      (xs ++ [x]).drop ((xs.length + 1) - 1000) ∧
    (save_local v t (runSaveLocal v t xs) x).2.history =
      (save_local v t (runSaveLocal v t xs) x).1 ∧
    (save_local v t (runSaveLocal v t xs) x).2.latest = x ∧
    (save_local v t (runSaveLocal v t xs) x).2.vehicle_id = v ∧
    (save_local v t (runSaveLocal v t xs) x).2.last_update = t ∧
    (save_local v t (runSaveLocal v t xs) x).2.total_readings =
      ((save_local v t (runSaveLocal v t xs) x).1).length := by
  have hstep : (save_local v t (runSaveLocal v t xs) x).1 =
      runSaveLocal v t (xs ++ [x]) := by
    simp [runSaveLocal, List.foldl_append]
  have hlen' : (xs ++ [x]).length = xs.length + 1 := by simp
  have key : (save_local v t (runSaveLocal v t xs) x).1 =
      (xs ++ [x]).drop ((xs.length + 1) - 1000) := by
    rw [hstep, runSaveLocal_eq, hlen']
  refine ⟨?_, key, rfl, rfl, rfl, rfl, rfl⟩
  rw [key, List.length_drop, hlen']
  omega

/-- C8 counterexample: in `obd_collector.py`, a null response for every
quantity yields a snapshot whose temperature field is the number 0 and
whose voltage field is 12.0 — numeric defaults, not absent values. -/
theorem C8_defaults_counterexample :
    ((RealOBDCollector.get_current_snapshot ⟨0, 0, 0⟩
        ⟨none, none, none, none, none, none, []⟩ 2).2).temperatura = 0 ∧
    ((RealOBDCollector.get_current_snapshot ⟨0, 0, 0⟩
        ⟨none, none, none, none, none, none, []⟩ 2).2).voltagem = 12 := by
  exact ⟨rfl, rfl⟩

/-- C8 amended: `_extract_value` does map a null response to `None`, and a
missing quantity never blocks the others (every other snapshot field is
unchanged when the rpm response is replaced) — but the snapshot assembly
of `obd_collector.py` then substitutes numeric defaults (0, and 12.0 for
voltage) for the missing values instead of leaving the fields absent. -/
theorem C8_absent_amended :
    RealOBDCollector.extract_value none = none ∧
    (∀ (s : RealOBDCollector.RState) (r : RealOBDCollector.Responses) (now : ℚ),
      (r.temp = none →
        ((RealOBDCollector.get_current_snapshot s r now).2).temperatura = 0) ∧
      (r.rpm = none →
        ((RealOBDCollector.get_current_snapshot s r now).2).rpm = 0) ∧
      (r.voltage = none →
        ((RealOBDCollector.get_current_snapshot s r now).2).voltagem = 12)) ∧
    (∀ (s : RealOBDCollector.RState) (r : RealOBDCollector.Responses)
        (now : ℚ) (rv : Option ℚ),
      ((RealOBDCollector.get_current_snapshot s { r with rpm := rv } now).2).velocidade =
        ((RealOBDCollector.get_current_snapshot s r now).2).velocidade ∧
      ((RealOBDCollector.get_current_snapshot s
          { r with rpm := rv } now).2).nivelCombustivel =
        ((RealOBDCollector.get_current_snapshot s r now).2).nivelCombustivel ∧
      ((RealOBDCollector.get_current_snapshot s
          { r with rpm := rv } now).2).consumoInstantaneo =
        ((RealOBDCollector.get_current_snapshot s r now).2).consumoInstantaneo ∧
      ((RealOBDCollector.get_current_snapshot s
          { r with rpm := rv } now).2).distanciaPercorrida =
        ((RealOBDCollector.get_current_snapshot s r now).2).distanciaPercorrida) := by
  refine ⟨rfl, ?_, ?_⟩
  · intro s r now
    refine ⟨?_, ?_, ?_⟩ <;> intro h <;>
      simp [RealOBDCollector.get_current_snapshot, RealOBDCollector.extract_value, h]
  · intro s r now rv
    exact ⟨rfl, rfl, rfl, rfl⟩

/-- Witness for C8 amended: a null temperature response with the other
quantities present yields temperature 0 in the snapshot. -/
theorem C8_absent_amended_witness :
    (RealOBDCollector.Responses.temp
      ⟨none, some 2000, some 50, some 60, some 5, some 14, []⟩ = none) ∧
    ((RealOBDCollector.get_current_snapshot ⟨0, 0, 0⟩
        ⟨none, some 2000, some 50, some 60, some 5, some 14, []⟩ 2).2).temperatura = 0 := by
  exact ⟨rfl, (C8_absent_amended.2.1 ⟨0, 0, 0⟩
    ⟨none, some 2000, some 50, some 60, some 5, some 14, []⟩ 2).1 rfl⟩

/-- C9 counterexample: two runs of `gerar_dados` from the same state,
mode and interval but different random draws (fuel draw 40 vs 90; all
draws within the sampled ranges) produce different Readings. -/
theorem C9_randomness_counterexample :
    (gerar_dados initState Modo.parado 2 ⟨0, 800, 0, 90, 40⟩).2 ≠
    (gerar_dados initState Modo.parado 2 ⟨0, 800, 0, 90, 90⟩).2 := by
  intro h
  have h2 := congrArg DadosOBD.nivelCombustivel h
  exact absurd h2 (by decide)

/-- C9 amended: the payload assembly itself is a randomness-free function
of the values it serializes — `gerar_dados` factors through
`montarPayload` applied to the evolved speed, rpm and temperature, the
fuel draw, a consumption value and the exact interval distance — but
`gerar_dados` feeds fresh random draws (fuel level, consumption,
temperature jitter) into that builder, so two runs from equal state can
differ. -/
theorem C9_builder_factorization (s : SimState) (m : Modo) (i : ℚ) (d : Draws) :
    ∃ c : ℚ, (gerar_dados s m i d).2 =
      montarPayload (gerar_dados s m i d).1.velocidade (gerar_dados s m i d).1.rpm
        (gerar_dados s m i d).1.temperatura d.rFuel c
        (((gerar_dados s m i d).1.velocidade / 3600) * i) := by
  cases m
  · exact ⟨0, rfl⟩
  · exact ⟨d.rConsumo, rfl⟩
  · exact ⟨d.rConsumo, rfl⟩
  · exact ⟨d.rConsumo, rfl⟩

/-- C10: in the simulator-backed snapshot path, a numeric value of 0 is
serialized as absent by Python truthiness: a speed of 0 makes the
Reading's speed_kmh `None`, a distance of 0 makes distance_traveled_km
`None`, and in general `round(v, n) if v else None` sends 0 to `None`. -/
theorem C10_zero_serialized_none (vid : String) (s : CState)
    (d : VehicleDataCollector.VDraws) (now : ℚ) :
    ((VehicleDataCollector.get_current_snapshot vid s d now).1.speed = 0 →
      ((VehicleDataCollector.get_current_snapshot vid s d now).2).speed_kmh = none) ∧
    ((VehicleDataCollector.get_current_snapshot vid s d now).1.distance = 0 →
      ((VehicleDataCollector.get_current_snapshot vid s d now).2).distance_traveled_km
        = none) ∧
    ((VehicleDataCollector.get_current_snapshot vid s d now).1.fuel_level = 0 →
      ((VehicleDataCollector.get_current_snapshot vid s d now).2).fuel_level_percent
        = none) ∧
    (∀ n : ℕ, truthyRound n (some 0) = none) := by
  refine ⟨?_, ?_, ?_, fun n => by simp [truthyRound]⟩
  · intro h
    show truthyRound 1 (some (s.update d.upd now).speed) = none
    rw [show (s.update d.upd now).speed = 0 from h]
    simp [truthyRound]
  · intro h
    show truthyRound 3 (some (s.update d.upd now).distance) = none
    rw [show (s.update d.upd now).distance = 0 from h]
    simp [truthyRound]
  · intro h
    show truthyRound 1 (some (s.update d.upd now).fuel_level) = none
    rw [show (s.update d.upd now).fuel_level = 0 from h]
    simp [truthyRound]

/-- Witness for C10: a stationary vehicle (speed decays to 0, distance 0)
gets `None` for speed_kmh and distance_traveled_km. -/
theorem C10_zero_serialized_none_witness :
    (VehicleDataCollector.get_current_snapshot "CAR-SUBJECT-001"
      ⟨0, 50, 0, false, 85, 800, 0, 0, "VIN"⟩
      ⟨⟨false, 30, 1, 10⟩, 5, 1, 0, 0, 0, false⟩ 2).1.speed = 0 ∧
    ((VehicleDataCollector.get_current_snapshot "CAR-SUBJECT-001"
      ⟨0, 50, 0, false, 85, 800, 0, 0, "VIN"⟩
      ⟨⟨false, 30, 1, 10⟩, 5, 1, 0, 0, 0, false⟩ 2).2).speed_kmh = none ∧
    (VehicleDataCollector.get_current_snapshot "CAR-SUBJECT-001"
      ⟨0, 50, 0, false, 85, 800, 0, 0, "VIN"⟩
      ⟨⟨false, 30, 1, 10⟩, 5, 1, 0, 0, 0, false⟩ 2).1.distance = 0 ∧
    ((VehicleDataCollector.get_current_snapshot "CAR-SUBJECT-001"
      ⟨0, 50, 0, false, 85, 800, 0, 0, "VIN"⟩
      ⟨⟨false, 30, 1, 10⟩, 5, 1, 0, 0, 0, false⟩ 2).2).distance_traveled_km = none := by
  have h := C10_zero_serialized_none "CAR-SUBJECT-001"
    ⟨0, 50, 0, false, 85, 800, 0, 0, "VIN"⟩ ⟨⟨false, 30, 1, 10⟩, 5, 1, 0, 0, 0, false⟩ 2
  have hs : (VehicleDataCollector.get_current_snapshot "CAR-SUBJECT-001"
      ⟨0, 50, 0, false, 85, 800, 0, 0, "VIN"⟩
      ⟨⟨false, 30, 1, 10⟩, 5, 1, 0, 0, 0, false⟩ 2).1.speed = 0 := by
    show (CState.update ⟨0, 50, 0, false, 85, 800, 0, 0, "VIN"⟩ ⟨false, 30, 1, 10⟩ 2).speed
      = 0
    norm_num [CState.update]
  have hd : (VehicleDataCollector.get_current_snapshot "CAR-SUBJECT-001"
      ⟨0, 50, 0, false, 85, 800, 0, 0, "VIN"⟩
      ⟨⟨false, 30, 1, 10⟩, 5, 1, 0, 0, 0, false⟩ 2).1.distance = 0 := by
    show (CState.update ⟨0, 50, 0, false, 85, 800, 0, 0, "VIN"⟩ ⟨false, 30, 1, 10⟩ 2).distance
      = 0
    norm_num [CState.update]
  exact ⟨hs, h.1 hs, hd, h.2.1 hd⟩

end Caravana
